import Mathlib

/-!
Verification development for the Zava retail demo application
(FastAPI backend `src/app/api/app.py`, PostgreSQL provider modules
`src/app/finance_postgres.py` and `src/app/supplier_postgres.py`,
MCP tool servers `src/app/mcp/finance_server.py` and
`src/mcp_server/supplier_mcp_server.py`, and the agent workflow
`src/app/agents/stock.py`).

The Python sources are embedded shallowly:

* database rows and scalar cell values become explicit Lean data,
* the asyncpg connection pool becomes a list of available connection ids
  threaded through each operation, together with an acquire/release trace,
* exceptions become `Except` values (`except Exception` catches every
  modelled exception; `json.dumps` serialization of the result dictionaries
  is modelled by an explicit `serializeEnvelope`),
* the SQL queries that a claim depends on semantically (joins, filters,
  aggregates, CASE expressions) are evaluated over an explicit relational
  database value; SQL evaluated by the external DBMS that no claim inspects
  is abstracted as the outcome of `conn.fetch`.
-/

/-- Scalar cell value of a database row, as seen by the JSON layer
(`json.dumps(..., default=str)` turns every non-primitive into a string). -/
inductive Value where
  | str (s : String)
  | int (n : Int)
  | rat (q : ℚ)
  | bool (b : Bool)
  | null
  deriving Repr, DecidableEq

/-- Exceptions that the Python code can raise and catch with `except Exception`.
`asyncio.CancelledError`/`KeyboardInterrupt` (not `Exception` subclasses) are out
of scope of every claim considered here. -/
inductive Exc where
  | runtimeError (msg : String)
  | dbError (msg : String)
  | keyError (key : String)
  deriving Repr, DecidableEq

/-- The message `str(e)` of a modelled exception. -/
def excMessage : Exc → String
  | .runtimeError m => m
  | .dbError m => m
  | .keyError k => k

/-- A database row as returned by `conn.fetch`: an association list from
column names to cell values (asyncpg `Record` preserves column order). -/
def Row : Type := List (String × Value)

instance : DecidableEq Row := inferInstanceAs (DecidableEq (List (String × Value)))

/-- The JSON envelope dictionary built by every provider query operation:
`{"err": ...}?, "c": columns, "r": rows, "n": count, {"msg": ...}?`. -/
structure Envelope where
  err : Option String := none
  c : List String := []
  r : List (List Value) := []
  n : Nat := 0
  msg : Option String := none
  deriving Repr, DecidableEq

/-- The error envelope `{"err": m, "c": [], "r": [], "n": 0}` built by every
`except Exception` branch of the provider query operations. -/
def errEnvelope (m : String) : Envelope := { err := some m }

/-- The empty-result envelope `{"c": [], "r": [], "n": 0, "msg": m}` built by
the `if not rows` branch. -/
def emptyEnvelope (m : String) : Envelope := { msg := some m }

/-- Lookup `row[col]`: raises `KeyError` when the column is absent from the record. -/
def lookupCol (row : Row) (col : String) : Except Exc Value :=
  match row.find? (fun kv => kv.1 == col) with
  | some kv => .ok kv.2
  | none => .error (.keyError col)

/-- Left-to-right effectful map, mirroring a Python list comprehension that can
raise at each element: the first exception aborts the whole comprehension. -/
def mapExc {α β : Type} (f : α → Except Exc β) : List α → Except Exc (List β)
  | [] => .ok []
  | x :: xs =>
    match f x with
    | .error e => .error e
    | .ok y =>
      match mapExc f xs with
      | .error e => .error e
      | .ok ys => .ok (y :: ys)

/-- The comprehension `[[row[col] for col in columns] for row in rows]`. -/
def buildRowsData (columns : List String) (rows : List Row) :
    Except Exc (List (List Value)) :=
  mapExc (fun row => mapExc (fun col => lookupCol row col) columns) rows

/-- Serialization of a scalar value by `json.dumps` (string escaping elided:
no value in this development contains a quote or a backslash). -/
def serializeValue : Value → String
  | .str s => "\"" ++ s ++ "\""
  | .int n => toString n
  | .rat q => toString q.num ++ "/" ++ toString q.den
  | .bool true => "true"
  | .bool false => "false"
  | .null => "null"

/-- Comma-join, as produced by `json.dumps(..., separators=(",", ":"))`. -/
def joinComma : List String → String
  | [] => ""
  | [x] => x
  | x :: y :: xs => x ++ "," ++ joinComma (y :: xs)

/-- Serialization of one data row. -/
def serializeRow (r : List Value) : String :=
  "[" ++ joinComma (r.map serializeValue) ++ "]"

/-- Serialization `json.dumps` of an envelope dictionary with `separators=(",", ":")`.
Key order follows the dictionary literals in the source: `err` first when
present, then `c`, `r`, `n`, and `msg` last when present. -/
def serializeEnvelope (e : Envelope) : String :=
  "\x7b" ++
    (match e.err with
     | some m => "\"err\":\"" ++ m ++ "\","
     | none => "") ++
    "\"c\":[" ++ joinComma (e.c.map (fun s => "\"" ++ s ++ "\"")) ++ "]," ++
    "\"r\":[" ++ joinComma (e.r.map serializeRow) ++ "]," ++
    "\"n\":" ++ toString e.n ++
    (match e.msg with
     | some m => ",\"msg\":\"" ++ m ++ "\""
     | none => "") ++
  "\x7d"

/-- An asyncpg connection pool: the multiset of currently available
connections, identified by number (`min_size=1, max_size=3`). -/
structure Pool where
  available : List Nat
  deriving Repr, DecidableEq

/-- One acquire or release performed against the pool. -/
inductive PoolEvent where
  | acq (c : Nat)
  | rel (c : Nat)
  deriving Repr, DecidableEq

/-- The externally determined behaviour of the database during one provider
query operation: whether `pool.acquire()` raises, whether the
`set_config` statement raises, and the outcome of `conn.fetch` for the
operation's SQL (rows, or a raised exception). -/
structure DbBehavior where
  acquireFails : Bool := false
  setConfigFails : Bool := false
  fetchOutcome : Except Exc (List Row) := .ok []

/-- Result of one provider query operation: the returned value
(`.ok env` means the coroutine returned normally with `json.dumps` of `env`;
`.error e` would mean the exception `e` escaped to the caller), the pool
afterwards, and the acquire/release trace. -/
structure OpOutcome where
  result : Except Exc Envelope
  pool : Option Pool
  events : List PoolEvent
  deriving Repr

/-- Common body of every finance/supplier provider query operation
(`conn = None; try: conn = get_connection(); set_config; rows = fetch(...);
build envelope; except Exception: error envelope; finally: release(conn)`).

`pool? = none` models `self.connection_pool is None`, in which case
`get_connection` raises `RuntimeError` before a connection is acquired.
An exhausted or failing `pool.acquire()` raises inside `get_connection`
and is re-raised as `RuntimeError`. In every raising case the `except
Exception` branch returns the error envelope; the `finally` block releases
the connection exactly when one was acquired. -/
def runProviderQuery (errPrefix emptyMsg : String)
    (pool? : Option Pool) (beh : DbBehavior) : OpOutcome :=
  match pool? with
  | none =>
    { result := .ok (errEnvelope (errPrefix ++
        "No database connection pool available. Call create_pool() first.")),
      pool := none, events := [] }
  | some pool =>
    match pool.available with
    | [] =>
      { result := .ok (errEnvelope (errPrefix ++
          "Connection pool exhausted or unavailable")),
        pool := some pool, events := [] }
    | c :: rest =>
      if beh.acquireFails then
        { result := .ok (errEnvelope (errPrefix ++
            "Connection pool exhausted or unavailable")),
          pool := some pool, events := [] }
      else
        -- connection `c` acquired; the `finally` block releases it back,
        -- so the pool afterwards is `rest ++ [c]` on every path below
        if beh.setConfigFails then
          { result := .ok (errEnvelope (errPrefix ++ "set_config failed")),
            pool := some { available := rest ++ [c] },
            events := [.acq c, .rel c] }
        else
          match beh.fetchOutcome with
          | .error e =>
            { result := .ok (errEnvelope (errPrefix ++ excMessage e)),
              pool := some { available := rest ++ [c] },
              events := [.acq c, .rel c] }
          | .ok rows =>
            match rows with
            | [] =>
              { result := .ok (emptyEnvelope emptyMsg),
                pool := some { available := rest ++ [c] },
                events := [.acq c, .rel c] }
            | r0 :: _ =>
              match buildRowsData (r0.map Prod.fst) rows with
              | .error e =>
                { result := .ok (errEnvelope (errPrefix ++ excMessage e)),
                  pool := some { available := rest ++ [c] },
                  events := [.acq c, .rel c] }
              | .ok dataRows =>
                { result := .ok { c := r0.map Prod.fst, r := dataRows,
                                  n := dataRows.length },
                  pool := some { available := rest ++ [c] },
                  events := [.acq c, .rel c] }

/-- ASCII lower-casing of one character (`LOWER`/`.lower()`). -/
def lowerChar (c : Char) : Char :=
  if 'A' ≤ c && c ≤ 'Z' then Char.ofNat (c.toNat + 32) else c

/-- ASCII lower-casing of a string. -/
def lowerStr (s : String) : String := ⟨s.data.map lowerChar⟩

/-- ASCII case-insensitive string equality, modelling
`UPPER(a) = UPPER(b)` / `LOWER(a) = LOWER(b)` in the SQL queries. -/
def eqCI (a b : String) : Bool := lowerStr a == lowerStr b

/-- Lexicographic comparison of character lists (collation model for the
SQL `ORDER BY` on text columns). -/
def charListLt : List Char → List Char → Bool
  | [], [] => false
  | [], _ :: _ => true
  | _ :: _, [] => false
  | a :: as, b :: bs =>
    if a < b then true else if b < a then false else charListLt as bs

/-- Comparison `a < b` on strings. -/
def strLt (a b : String) : Bool := charListLt a.data b.data

/-- Comparison `a ≤ b` on strings. -/
def strLe (a b : String) : Bool := !(strLt b a)

/-- First occurrence of the (non-empty) separator in a character list:
the part before it and the part after it. -/
def findSep (sep : List Char) : List Char → Option (List Char × List Char)
  | [] => none
  | c :: cs =>
    if sep.isPrefixOf (c :: cs) then some ([], (c :: cs).drop sep.length)
    else
      match findSep sep cs with
      | some (pre, post) => some (c :: pre, post)
      | none => none

/-- Fuel-bounded splitting at every occurrence of the separator. -/
def splitOnCharsAux (sep : List Char) : Nat → List Char → List (List Char)
  | 0, l => [l]
  | fuel + 1, l =>
    match findSep sep l with
    | some (pre, post) => pre :: splitOnCharsAux sep fuel post
    | none => [l]

/-- Python `s.split(sep)` for a non-empty separator (the fuel is ample:
each split consumes at least one character). -/
def splitOnStr (sep s : String) : List String :=
  (splitOnCharsAux sep.data (s.data.length + 1) s.data).map (fun cs => ⟨cs⟩)

/-- Insertion into a sorted list (helper for modelling `ORDER BY`). -/
def insertSorted {α : Type} (le : α → α → Bool) (x : α) : List α → List α
  | [] => [x]
  | y :: ys => if le x y then x :: y :: ys else y :: insertSorted le x ys

/-- Insertion sort, modelling `ORDER BY` (which permutes the result set). -/
def sortBy {α : Type} (le : α → α → Bool) : List α → List α
  | [] => []
  | x :: xs => insertSorted le x (sortBy le xs)

/-- A row of `retail.stores`. -/
structure StoreRow where
  store_id : Int
  store_name : String
  is_online : Bool
  deriving Repr, DecidableEq

/-- A row of `retail.categories` (`category_id` is the primary key). -/
structure CategoryRow where
  category_id : Int
  category_name : String
  deriving Repr, DecidableEq

/-- A row of `retail.product_types` (`type_id` is the primary key). -/
structure ProductTypeRow where
  type_id : Int
  type_name : String
  deriving Repr, DecidableEq

/-- A row of `retail.products` (`product_id` is the primary key). -/
structure ProductRow where
  product_id : Int
  sku : String
  product_name : String
  product_description : Option String
  category_id : Int
  type_id : Int
  cost : ℚ
  base_price : ℚ
  gross_margin_percent : ℚ
  discontinued : Bool
  supplier_id : Option Int
  deriving Repr, DecidableEq

/-- A row of `retail.suppliers` (`supplier_id` is the primary key). -/
structure SupplierRow where
  supplier_id : Int
  supplier_name : String
  supplier_code : String
  lead_time_days : Int
  deriving Repr, DecidableEq

/-- A row of `retail.inventory` (one row per store and product). -/
structure InventoryRow where
  store_id : Int
  product_id : Int
  stock_level : Int
  deriving Repr, DecidableEq

/-- A row of `retail.product_image_embeddings`
(at most one row per `product_id`). -/
structure ImageRow where
  product_id : Int
  image_url : String
  deriving Repr, DecidableEq

/-- The relational database state the queried tables range over. Join keys
(`store_id`, `product_id`, `category_id`, `type_id`, `supplier_id`) are
primary keys of their tables, so an `INNER JOIN`/`LEFT JOIN` on them matches
at most one row, modelled with `List.find?`. -/
structure RetailDB where
  stores : List StoreRow
  categories : List CategoryRow
  product_types : List ProductTypeRow
  products : List ProductRow
  suppliers : List SupplierRow
  inventory : List InventoryRow
  product_image_embeddings : List ImageRow
  deriving Repr

/-- One result row of the `get_current_inventory_status` SQL query
(src/app/finance_postgres.py lines 385-425), including the computed
`CASE WHEN i.stock_level <= $1 THEN true ELSE false END as low_stock_alert`. -/
structure FinanceInvRow where
  store_name : String
  is_online : Bool
  product_name : String
  sku : String
  category_name : String
  product_type : String
  stock_level : Int
  cost : ℚ
  base_price : ℚ
  inventory_value : ℚ
  retail_value : ℚ
  low_stock_alert : Bool
  deriving Repr, DecidableEq

/-- Comparison key of `ORDER BY s.store_name, c.category_name, i.stock_level ASC`. -/
def finInvLe (a b : FinanceInvRow) : Bool :=
  if a.store_name ≠ b.store_name then strLt a.store_name b.store_name
  else if a.category_name ≠ b.category_name then strLt a.category_name b.category_name
  else decide (a.stock_level ≤ b.stock_level)

/-- The candidate result row of the `get_current_inventory_status` query
for one `inventory` row: the inner joins against `stores`, `products`,
`categories` and `product_types` (on their primary keys), the WHERE
filters, and the computed value and `low_stock_alert` columns. -/
def finInvJoin (db : RetailDB) (store_id : Option Int)
    (category_name : Option String) (low_stock_threshold : Int)
    (i : InventoryRow) : Option FinanceInvRow :=
  match db.stores.find? (fun s => s.store_id == i.store_id) with
  | none => none
  | some st =>
    match db.products.find? (fun pr => pr.product_id == i.product_id) with
    | none => none
    | some p =>
      match db.categories.find? (fun ca => ca.category_id == p.category_id) with
      | none => none
      | some c =>
        match db.product_types.find? (fun t => t.type_id == p.type_id) with
        | none => none
        | some pt =>
          if !p.discontinued &&
             (match store_id with
              | some sid => i.store_id == sid
              | none => true) &&
             -- `if category_name:` — Python truthiness skips the filter for `""`
             (match category_name with
              | some cn => cn.isEmpty || eqCI c.category_name cn
              | none => true) then
            some { store_name := st.store_name
                   is_online := st.is_online
                   product_name := p.product_name
                   sku := p.sku
                   category_name := c.category_name
                   product_type := pt.type_name
                   stock_level := i.stock_level
                   cost := p.cost
                   base_price := p.base_price
                   inventory_value := i.stock_level * p.cost
                   retail_value := i.stock_level * p.base_price
                   low_stock_alert := i.stock_level ≤ low_stock_threshold }
          else none

/-- Evaluation of the `get_current_inventory_status` query over a database
state: joins `inventory × stores × products × categories × product_types`,
keeps non-discontinued products, applies the optional store and
(case-insensitive) category filters, computes the value columns and the
`low_stock_alert` CASE expression, and orders the result. -/
def financeInventoryRows (db : RetailDB) (store_id : Option Int)
    (category_name : Option String) (low_stock_threshold : Int) :
    List FinanceInvRow :=
  sortBy finInvLe
    (db.inventory.filterMap
      (finInvJoin db store_id category_name low_stock_threshold))

/-- The asyncpg record for one `FinanceInvRow`, in SELECT-list order. -/
def finInvRowToRow (r : FinanceInvRow) : Row :=
  [("store_name", .str r.store_name),
   ("is_online", .bool r.is_online),
   ("product_name", .str r.product_name),
   ("sku", .str r.sku),
   ("category_name", .str r.category_name),
   ("product_type", .str r.product_type),
   ("stock_level", .int r.stock_level),
   ("cost", .rat r.cost),
   ("base_price", .rat r.base_price),
   ("inventory_value", .rat r.inventory_value),
   ("retail_value", .rat r.retail_value),
   ("low_stock_alert", .bool r.low_stock_alert)]

namespace FinancePostgreSQLProvider

/-- Embeds `FinancePostgreSQLProvider.get_company_order_policy`
(src/app/finance_postgres.py lines 109-189). The SQL text built from
`department` is evaluated by the external DBMS; `beh.fetchOutcome` is the
outcome of `conn.fetch(query, *params)`. -/
def get_company_order_policy (department : Option String)
    (pool? : Option Pool) (beh : DbBehavior) : OpOutcome :=
  let _ := department
  runProviderQuery "Company order policy query failed: "
    "No order policies found" pool? beh

/-- Embeds `FinancePostgreSQLProvider.get_supplier_contract`
(src/app/finance_postgres.py lines 191-273). -/
def get_supplier_contract (supplier_id : Int)
    (pool? : Option Pool) (beh : DbBehavior) : OpOutcome :=
  let _ := supplier_id
  runProviderQuery "Supplier contract query failed: "
    "No contract found for supplier ID" pool? beh

/-- Embeds `FinancePostgreSQLProvider.get_historical_sales_data`
(src/app/finance_postgres.py lines 275-364). -/
def get_historical_sales_data (days_back : Int) (store_id : Option Int)
    (category_name : Option String) (pool? : Option Pool) (beh : DbBehavior) :
    OpOutcome :=
  let _ := (days_back, store_id, category_name)
  runProviderQuery "Historical sales query failed: "
    "No sales data found" pool? beh

/-- The `conn.fetch` outcome of `get_current_inventory_status`: the rows of
its SQL query evaluated by `financeInventoryRows`, or a raised exception. -/
def invStatusFetch (db : RetailDB) (fault : Option Exc)
    (store_id : Option Int) (category_name : Option String)
    (low_stock_threshold : Int) : Except Exc (List Row) :=
  match fault with
  | some e => .error e
  | none =>
    .ok ((financeInventoryRows db store_id category_name
            low_stock_threshold).map finInvRowToRow)

/-- Embeds `FinancePostgreSQLProvider.get_current_inventory_status`
(src/app/finance_postgres.py lines 366-458). Here the SQL is evaluated
semantically by `financeInventoryRows`; `fault = some e` models the DBMS
raising exception `e` instead of returning rows. -/
def get_current_inventory_status (db : RetailDB) (fault : Option Exc)
    (store_id : Option Int) (category_name : Option String)
    (low_stock_threshold : Int) (pool? : Option Pool)
    (acquireFails setConfigFails : Bool) : OpOutcome :=
  runProviderQuery "Inventory status query failed: "
    "No inventory data found" pool?
    { acquireFails := acquireFails
      setConfigFails := setConfigFails
      fetchOutcome := invStatusFetch db fault store_id category_name low_stock_threshold }

end FinancePostgreSQLProvider

namespace SupplierPostgreSQLProvider

/-- Embeds `SupplierPostgreSQLProvider.list_suppliers`
(src/app/supplier_postgres.py lines 35-82). -/
def list_suppliers (name_query : Option String) (limit : Int)
    (pool? : Option Pool) (beh : DbBehavior) : OpOutcome :=
  let _ := (name_query, limit)
  runProviderQuery "List suppliers query failed: "
    "No suppliers found" pool? beh

/-- Embeds `SupplierPostgreSQLProvider.find_suppliers_for_request`
(src/app/supplier_postgres.py lines 157-282). -/
def find_suppliers_for_request (product_category : Option String)
    (esg_required : Bool) (min_rating : ℚ) (max_lead_time : Int)
    (budget_min budget_max : Option ℚ) (limit : Int)
    (pool? : Option Pool) (beh : DbBehavior) : OpOutcome :=
  let _ := (product_category, esg_required, min_rating, max_lead_time,
            budget_min, budget_max, limit)
  runProviderQuery "Find suppliers query failed: "
    "No suppliers found matching criteria" pool? beh

end SupplierPostgreSQLProvider

namespace FinanceServer

/-- Embeds the MCP tool `get_company_order_policy`
(src/app/mcp/finance_server.py lines 58-97): returns the provider result
unchanged, and converts an exception escaping the provider call into an
error envelope. The provider used there (`FinanceSQLiteProvider`,
module `app.finance_sqlite`) is not part of the sources, so its outcome
is a parameter. -/
def get_company_order_policy (providerOutcome : Except Exc Envelope) :
    Envelope :=
  match providerOutcome with
  | .ok e => e
  | .error e =>
    errEnvelope ("Failed to retrieve company order policy: " ++ excMessage e)

/-- Embeds the MCP tool `get_current_utc_date`
(src/app/mcp/finance_server.py lines 298-314): returns
`datetime.now(UTC).isoformat()` — a bare ISO-8601 string, not a JSON
envelope. The clock is a parameter. -/
def get_current_utc_date (nowIso : String) : String := nowIso

end FinanceServer

namespace SupplierServer

/-- Embeds the MCP tool `find_suppliers_for_request`
(src/mcp_server/supplier_mcp_server.py lines 74-151): returns the
provider result string unchanged and converts an escaped exception into
the literal error-envelope string. -/
def find_suppliers_for_request (providerOutcome : Except Exc Envelope) :
    String :=
  match providerOutcome with
  | .ok e => serializeEnvelope e
  | .error e =>
    serializeEnvelope (errEnvelope ("Find suppliers failed: " ++ excMessage e))

end SupplierServer

/-- Python `round(x, 2)` on exact rationals (tie-breaking differences of
binary-float half-even rounding are immaterial to the claims, which hold
"up to rounding"). -/
def round2 (q : ℚ) : ℚ := (round (q * 100) : ℤ) / 100

/-- Python `round(x, 1)` on exact rationals. -/
def round1 (q : ℚ) : ℚ := (round (q * 10) : ℤ) / 10

/-- Case-insensitive substring containment, modelling
`LOWER(field) LIKE LOWER('%pattern%')` (patterns in this development
contain no SQL wildcard characters). -/
def containsCI (hay needle : String) : Bool :=
  (lowerStr hay).data.tails.any (fun t => (lowerStr needle).data.isPrefixOf t)

namespace AppApi

/-- Pydantic `InventoryItem` (src/app/api/app.py lines 158-179). -/
structure InventoryItem where
  store_id : Int
  store_name : String
  store_location : String
  is_online : Bool
  product_id : Int
  product_name : String
  sku : String
  category : String
  type : String
  stock_level : Int
  reorder_point : Int
  is_low_stock : Bool
  unit_cost : ℚ
  unit_price : ℚ
  stock_value : ℚ
  retail_value : ℚ
  supplier_name : Option String
  supplier_code : Option String
  lead_time : Option Int
  image_url : Option String
  deriving Repr, DecidableEq

/-- Pydantic `InventorySummary` (src/app/api/app.py lines 182-188). -/
structure InventorySummary where
  total_items : Nat
  low_stock_count : Nat
  total_stock_value : ℚ
  total_retail_value : ℚ
  avg_stock_level : ℚ
  deriving Repr, DecidableEq

/-- Pydantic `InventoryResponse` (src/app/api/app.py lines 191-194). -/
structure InventoryResponse where
  inventory : List InventoryItem
  summary : InventorySummary
  deriving Repr, DecidableEq

/-- One row of the inner join
`inventory × stores × products × categories × product_types` shared by the
summary query and the item query of `GET /api/management/inventory`. -/
structure InvJoinRow where
  inv : InventoryRow
  store : StoreRow
  product : ProductRow
  category : CategoryRow
  ptype : ProductTypeRow
  deriving Repr, DecidableEq

/-- The rows matching the dynamic WHERE clause of
`GET /api/management/inventory` (src/app/api/app.py lines 1016-1054):
optional store, product and (case-insensitive, truthiness-guarded)
category filters over the five-way inner join. -/
def invMatchedRows (db : RetailDB) (store_id product_id : Option Int)
    (category : Option String) : List InvJoinRow :=
  db.inventory.filterMap fun i => do
    let st ← db.stores.find? (fun s => s.store_id == i.store_id)
    let p ← db.products.find? (fun pr => pr.product_id == i.product_id)
    let c ← db.categories.find? (fun ca => ca.category_id == p.category_id)
    let pt ← db.product_types.find? (fun t => t.type_id == p.type_id)
    let keep : Bool :=
      (match store_id with
       | some sid => i.store_id == sid
       | none => true) &&
      (match product_id with
       | some pid => i.product_id == pid
       | none => true) &&
      -- `if category:` — truthiness skips the filter for `""`
      (match category with
       | some cn => cn.isEmpty || eqCI c.category_name cn
       | none => true)
    if keep then some { inv := i, store := st, product := p, category := c, ptype := pt }
    else none

/-- Comparison key of `ORDER BY i.stock_level ASC, st.store_name, p.product_name`. -/
def invRowLe (a b : InvJoinRow) : Bool :=
  if a.inv.stock_level ≠ b.inv.stock_level then
    decide (a.inv.stock_level < b.inv.stock_level)
  else if a.store.store_name ≠ b.store.store_name then
    strLt a.store.store_name b.store.store_name
  else strLe a.product.product_name b.product.product_name

/-- Location extracted from the store name (src/app/api/app.py lines 1112-1123). -/
def storeLocation (st : StoreRow) : String :=
  if st.is_online then "Online Warehouse"
  else
    match (splitOnStr "Pop-Up " st.store_name).get? 1 with
    | some loc => loc
    | none => st.store_name

/-- One `InventoryItem` built in the loop of `get_inventory`
(src/app/api/app.py lines 1096-1146). `float(x) if x else 0` is the
identity on exact non-NULL rationals and is transcribed as the
corresponding conditional. -/
def toInventoryItem (db : RetailDB) (low_stock_threshold : Int)
    (r : InvJoinRow) : InventoryItem :=
  let supplier : Option SupplierRow :=
    match r.product.supplier_id with
    | some sid => db.suppliers.find? (fun s => s.supplier_id == sid)
    | none => none
  let image := db.product_image_embeddings.find?
    (fun im => im.product_id == r.product.product_id)
  let stock_value : ℚ :=
    if r.product.cost == 0 then 0 else r.product.cost * r.inv.stock_level
  let retail_value : ℚ :=
    if r.product.base_price == 0 then 0 else r.product.base_price * r.inv.stock_level
  { store_id := r.inv.store_id
    store_name := r.store.store_name
    store_location := storeLocation r.store
    is_online := r.store.is_online
    product_id := r.inv.product_id
    product_name := r.product.product_name
    sku := r.product.sku
    category := r.category.category_name
    type := r.ptype.type_name
    stock_level := r.inv.stock_level
    reorder_point := low_stock_threshold
    is_low_stock := r.inv.stock_level < low_stock_threshold
    unit_cost := if r.product.cost == 0 then 0 else r.product.cost
    unit_price := if r.product.base_price == 0 then 0 else r.product.base_price
    stock_value := round2 stock_value
    retail_value := round2 retail_value
    supplier_name := supplier.map (fun s => s.supplier_name)
    supplier_code := supplier.map (fun s => s.supplier_code)
    lead_time := supplier.map (fun s => s.lead_time_days)
    image_url := image.map (fun im => im.image_url) }

/-- Embeds `GET /api/management/inventory` (src/app/api/app.py lines
991-1166): the summary is computed by a dedicated query over ALL rows
matching the filters (`low_stock_only` and `limit` do not apply to it),
while the returned items come from the limited, ordered item query and are
additionally filtered by `low_stock_only` in the Python loop. -/
def get_inventory (db : RetailDB) (store_id product_id : Option Int)
    (category : Option String) (low_stock_only : Bool)
    (low_stock_threshold : Int) (limit : Nat) : InventoryResponse :=
  let matched := invMatchedRows db store_id product_id category
  let stocks : List ℚ := matched.map (fun r => (r.inv.stock_level : ℚ))
  let summary : InventorySummary :=
    { total_items := ((matched.map (fun r => r.product.product_id)).dedup).length
      low_stock_count :=
        (matched.filter (fun r => r.inv.stock_level < low_stock_threshold)).length
      total_stock_value :=
        round2 ((matched.map
          (fun r => (r.inv.stock_level : ℚ) * r.product.cost)).sum)
      total_retail_value :=
        round2 ((matched.map
          (fun r => (r.inv.stock_level : ℚ) * r.product.base_price)).sum)
      avg_stock_level :=
        round1 (if matched.isEmpty then 0 else stocks.sum / (matched.length : ℚ)) }
  let limited := (sortBy invRowLe matched).take limit
  let items := limited.filterMap fun r =>
    -- `if low_stock_only and not is_low_stock: continue`
    if low_stock_only && !(r.inv.stock_level < low_stock_threshold) then none
    else some (toInventoryItem db low_stock_threshold r)
  { inventory := items, summary := summary }

end AppApi

namespace AppApi

/-- Pydantic `Product` (src/app/api/app.py lines 61-74). -/
structure Product where
  product_id : Int
  sku : String
  product_name : String
  category_name : String
  type_name : String
  unit_price : ℚ
  cost : ℚ
  gross_margin_percent : ℚ
  product_description : Option String
  supplier_name : Option String
  discontinued : Bool
  image_url : Option String
  deriving Repr, DecidableEq

/-- Pydantic `ProductList` (src/app/api/app.py lines 77-80). -/
structure ProductList where
  products : List Product
  total : Nat
  deriving Repr, DecidableEq

/-- Outcome of a FastAPI endpoint: a 200 response with a body, or an
`HTTPException` with a status code and detail. -/
inductive ApiResult (α : Type) where
  | ok (body : α)
  | httpError (status : Nat) (detail : String)
  deriving Repr, DecidableEq

/-- Whether an `ApiResult` is an `HTTPException` with the given status. -/
def ApiResult.hasStatus {α : Type} (r : ApiResult α) (s : Nat) : Bool :=
  match r with
  | .httpError st _ => st == s
  | .ok _ => false

/-- The count of the `total_query` of `GET /api/products/category/{category}`
(src/app/api/app.py lines 584-590): non-discontinued products joined (inner)
with their category, whose category name equals `category`
case-insensitively. -/
def categoryProductCount (db : RetailDB) (category : String) : Nat :=
  (db.products.filterMap fun p => do
    let c ← db.categories.find? (fun ca => ca.category_id == p.category_id)
    if !p.discontinued && eqCI c.category_name category then some p else none).length

/-- One `Product` record as built by `get_products_by_category`
(src/app/api/app.py lines 626-640). -/
def toProduct (db : RetailDB) (p : ProductRow) (c : CategoryRow)
    (pt : ProductTypeRow) : Product :=
  let supplier : Option SupplierRow :=
    match p.supplier_id with
    | some sid => db.suppliers.find? (fun s => s.supplier_id == sid)
    | none => none
  let image := db.product_image_embeddings.find?
    (fun im => im.product_id == p.product_id)
  { product_id := p.product_id
    sku := p.sku
    product_name := p.product_name
    category_name := c.category_name
    type_name := pt.type_name
    unit_price := p.base_price
    cost := p.cost
    gross_margin_percent := p.gross_margin_percent
    product_description := p.product_description
    supplier_name := supplier.map (fun s => s.supplier_name)
    discontinued := p.discontinued
    image_url := image.map (fun im => im.image_url) }

/-- Comparison key of `ORDER BY p.product_name`. -/
def productNameLe (a b : Product) : Bool := strLe a.product_name b.product_name

/-- The rows of the item query of `GET /api/products/category/{category}`
(src/app/api/app.py lines 598-623): same filter as the count query plus the
inner join with `product_types`, ordered by product name, with
`LIMIT $2 OFFSET $3`. -/
def categoryProducts (db : RetailDB) (category : String)
    (limit offset : Nat) : List Product :=
  ((sortBy productNameLe
    (db.products.filterMap fun p => do
      let c ← db.categories.find? (fun ca => ca.category_id == p.category_id)
      let pt ← db.product_types.find? (fun t => t.type_id == p.type_id)
      if !p.discontinued && eqCI c.category_name category then
        some (toProduct db p c pt)
      else none)).drop offset).take limit

/-- Embeds `GET /api/products/category/{category}`
(src/app/api/app.py lines 562-661): runs the count query first, raises
`HTTPException(404)` when the count is zero, and otherwise returns the
item-query page with `total` set to the (limit/offset independent) count. -/
def get_products_by_category (db : RetailDB) (category : String)
    (limit offset : Nat) : ApiResult ProductList :=
  let total := categoryProductCount db category
  if total == 0 then
    .httpError 404 ("No products found in category " ++ category)
  else
    .ok { products := categoryProducts db category limit offset, total := total }

end AppApi

namespace AppApi

/-- Pydantic `ManagementProduct` (src/app/api/app.py lines 197-217). -/
structure ManagementProduct where
  product_id : Int
  sku : String
  name : String
  description : Option String
  category : String
  type : String
  base_price : ℚ
  cost : ℚ
  margin : ℚ
  discontinued : Bool
  supplier_id : Option Int
  supplier_name : Option String
  supplier_code : Option String
  lead_time : Option Int
  total_stock : Int
  store_count : Nat
  stock_value : ℚ
  retail_value : ℚ
  image_url : Option String
  deriving Repr, DecidableEq

/-- Pydantic `ProductPagination` (src/app/api/app.py lines 220-225). -/
structure ProductPagination where
  total : Nat
  limit : Nat
  offset : Nat
  has_more : Bool
  deriving Repr, DecidableEq

/-- Pydantic `ManagementProductResponse` (src/app/api/app.py lines 228-231). -/
structure ManagementProductResponse where
  products : List ManagementProduct
  pagination : ProductPagination
  deriving Repr, DecidableEq

/-- The dynamic WHERE clause of `GET /api/management/products`
(src/app/api/app.py lines 1203-1232), evaluated for a product `p` joined
with its category `c`: truthiness-guarded category and search filters,
`is not None`-guarded supplier and discontinued filters. The search term
matches name, SKU or description case-insensitively as a substring
(`LIKE '%term%'`). -/
def managementProductMatches (category : Option String)
    (supplier_id : Option Int) (discontinued : Option Bool)
    (search : Option String) (p : ProductRow) (c : CategoryRow) : Bool :=
  (match category with
   | some cat => cat.isEmpty || eqCI c.category_name cat
   | none => true) &&
  (match supplier_id with
   | some sid => p.supplier_id == some sid
   | none => true) &&
  (match discontinued with
   | some d => p.discontinued == d
   | none => true) &&
  (match search with
   | some s =>
     s.isEmpty ||
     (containsCI p.product_name s || containsCI p.sku s ||
      (match p.product_description with
       | some d => containsCI d s
       | none => false))
   | none => true)

/-- The `count_query` of `GET /api/management/products`
(src/app/api/app.py lines 1235-1242): `COUNT(*)` over
`products INNER JOIN categories LEFT JOIN suppliers` under the WHERE
clause (the left join on the `suppliers` primary key does not multiply
rows). -/
def managementProductCount (db : RetailDB) (category : Option String)
    (supplier_id : Option Int) (discontinued : Option Bool)
    (search : Option String) : Nat :=
  (db.products.filterMap fun p => do
    let c ← db.categories.find? (fun ca => ca.category_id == p.category_id)
    if managementProductMatches category supplier_id discontinued search p c
    then some p else none).length

/-- One `ManagementProduct` as built by the item query and loop of
`get_products` (src/app/api/app.py lines 1245-1310):
`COALESCE(SUM(i.stock_level), 0) as total_stock` and
`COUNT(i.store_id) as store_count` aggregate the product's inventory
rows. -/
def toManagementProduct (db : RetailDB) (p : ProductRow) (c : CategoryRow)
    (pt : ProductTypeRow) : ManagementProduct :=
  let supplier : Option SupplierRow :=
    match p.supplier_id with
    | some sid => db.suppliers.find? (fun s => s.supplier_id == sid)
    | none => none
  let image := db.product_image_embeddings.find?
    (fun im => im.product_id == p.product_id)
  let invRows := db.inventory.filter (fun i => i.product_id == p.product_id)
  let base_price : ℚ := if p.base_price == 0 then 0 else p.base_price
  let cost : ℚ := if p.cost == 0 then 0 else p.cost
  let total_stock : Int := (invRows.map (fun i => i.stock_level)).sum
  { product_id := p.product_id
    sku := p.sku
    name := p.product_name
    description := p.product_description
    category := c.category_name
    type := pt.type_name
    base_price := base_price
    cost := cost
    margin := if p.gross_margin_percent == 0 then 0 else p.gross_margin_percent
    discontinued := p.discontinued
    supplier_id := supplier.map (fun s => s.supplier_id)
    supplier_name := supplier.map (fun s => s.supplier_name)
    supplier_code := supplier.map (fun s => s.supplier_code)
    lead_time := supplier.map (fun s => s.lead_time_days)
    total_stock := total_stock
    store_count := invRows.length
    stock_value := round2 (cost * total_stock)
    retail_value := round2 (base_price * total_stock)
    image_url := image.map (fun im => im.image_url) }

/-- Comparison key of `ORDER BY p.product_name` for management products. -/
def mgmtNameLe (a b : ManagementProduct) : Bool := strLe a.name b.name

/-- The page returned by the item query of `GET /api/management/products`:
the matching products (inner-joined with category and type), ordered by
name, with `LIMIT $i OFFSET $(i+1)`. -/
def managementProductsPage (db : RetailDB) (category : Option String)
    (supplier_id : Option Int) (discontinued : Option Bool)
    (search : Option String) (limit offset : Nat) : List ManagementProduct :=
  ((sortBy mgmtNameLe
    (db.products.filterMap fun p => do
      let c ← db.categories.find? (fun ca => ca.category_id == p.category_id)
      let pt ← db.product_types.find? (fun t => t.type_id == p.type_id)
      if managementProductMatches category supplier_id discontinued search p c
      then some (toManagementProduct db p c pt) else none)).drop offset).take limit

/-- Embeds `GET /api/management/products` (src/app/api/app.py lines
1178-1322): runs the count query, fetches one page of products, and builds
the pagination block with
`has_more = (offset + len(products)) < total_count`. -/
def get_products (db : RetailDB) (category : Option String)
    (supplier_id : Option Int) (discontinued : Option Bool)
    (search : Option String) (limit offset : Nat) :
    ManagementProductResponse :=
  let total_count := managementProductCount db category supplier_id discontinued search
  let products := managementProductsPage db category supplier_id discontinued search limit offset
  { products := products
    pagination :=
      { total := total_count
        limit := limit
        offset := offset
        has_more := offset + products.length < total_count } }

end AppApi

namespace AppApi

/-- Python exceptions relevant to module-name resolution in `app.py`. -/
inductive PyExc where
  | nameError (name : String)
  deriving Repr, DecidableEq

/-- Every name bound at module level in `src/app/api/app.py`: the imported
names (lines 7-42), the module constants (lines 49-57), the Pydantic model
classes (lines 61-231), the lifespan/app/helper definitions and the route
handler functions, plus `uvicorn` imported under the `__main__` guard
(line 1482). `lifespan` declares `global sqlalchemy_engine,
async_session_factory` only. -/
def appModuleBindings : List String :=
  ["logging", "asynccontextmanager", "List", "Optional",
   "ChatMessage", "ExecutorInvokedEvent", "ExecutorCompletedEvent",
   "ExecutorFailedEvent", "WorkflowOutputEvent", "WorkflowStartedEvent",
   "FastAPI", "HTTPException", "Query", "WebSocket", "WebSocketDisconnect",
   "CORSMiddleware", "FastAPICache", "InMemoryBackend", "cache",
   "BaseModel", "Field", "json", "datetime", "timezone", "Config",
   "workflow", "select", "func", "AsyncEngine", "AsyncSession",
   "async_sessionmaker", "create_async_engine", "Base", "StoreModel",
   "InventoryModel", "ProductModel", "CategoryModel",
   "logger", "config", "SCHEMA_NAME", "sqlalchemy_engine",
   "async_session_factory",
   "Product", "ProductList", "Store", "StoreList", "Category",
   "CategoryList", "TopCategory", "TopCategoryList", "Supplier",
   "SupplierList", "InventoryItem", "InventorySummary", "InventoryResponse",
   "ManagementProduct", "ProductPagination", "ManagementProductResponse",
   "lifespan", "app", "get_db_session",
   "health_check", "get_stores", "get_categories", "get_featured_products",
   "get_products_by_category", "get_product_by_id", "get_product_by_sku",
   "get_top_categories", "get_suppliers", "get_inventory", "get_products",
   "websocket_ai_agent_inventory", "root", "uvicorn"]

/-- Python global-name resolution inside a function body of `app.py`:
a name that is no local is looked up among the module bindings and raises
`NameError` when absent. -/
def evalGlobal (name : String) : Except PyExc Unit :=
  if appModuleBindings.contains name then .ok () else .error (.nameError name)

/-- The dictionary returned by the `/health` endpoint. -/
structure HealthResponse where
  status : String
  service : String
  database : String
  deriving Repr, DecidableEq

/-- Embeds `health_check` (src/app/api/app.py lines 324-336): evaluating
`db_provider and db_provider.connection_pool` resolves the global name
`db_provider` first; only if that succeeds is the response dictionary
built. `db_status` abstracts the value the conditional expression would
produce. -/
def health_check (db_status : String) : Except PyExc HealthResponse := do
  let _ ← evalGlobal "db_provider"
  .ok { status := "healthy", service := "github-api", database := db_status }

/-- The asyncpg-backed endpoints of `app.py` paired with the module-global
name each dereferences before any query executes (transcribed from the
first statement of each handler body: the `if not db_provider ...` guard
or the `conn = await db_provider.get_connection()` line). -/
def endpointFirstGlobal : List (String × String) :=
  [("health_check", "db_provider"),               -- line 329
   ("get_featured_products", "db_provider"),      -- line 487
   ("get_products_by_category", "db_provider"),   -- line 573
   ("get_product_by_id", "db_provider"),          -- line 671
   ("get_product_by_sku", "db_provider"),         -- line 750
   ("get_top_categories", "db_provider"),         -- line 832
   ("get_suppliers", "db_provider"),              -- line 909
   ("get_inventory", "db_provider"),              -- line 1011
   ("get_products", "db_provider")]               -- line 1198

/-- The first evaluation step of an asyncpg-backed endpoint: resolve the
global name it dereferences. -/
def endpointEntry (endpoint : String) : Except PyExc Unit :=
  match endpointFirstGlobal.find? (fun kv => kv.1 == endpoint) with
  | some kv => do
    let _ ← evalGlobal kv.2
    .ok ()
  | none => .ok ()

end AppApi

namespace Stock

/-- The Python types passed between the executors of `stock.py`. -/
inductive MsgType where
  | chatMessage
  | departmentRequest
  | str
  | listChatMessage
  deriving Repr, DecidableEq

/-- One executor of the stock workflow: its id, the type of the message its
`@handler` consumes, the type it passes on via `ctx.send_message` (if any),
and the type it yields via `ctx.yield_output` (if any). -/
structure ExecutorSpec where
  id : String
  inputType : MsgType
  sendsType : Option MsgType
  yieldsType : Option MsgType
  deriving Repr, DecidableEq

/-- Executor `DepartmentExtractor` (src/app/agents/stock.py lines 51-71): default id
`"writer"`; `handle(message: ChatMessage, ctx: WorkflowContext[DepartmentRequest])`
sends a `DepartmentRequest`. -/
def writer : ExecutorSpec :=
  { id := "writer", inputType := .chatMessage,
    sendsType := some .departmentRequest, yieldsType := none }

/-- Executor `PolicyExecutor` (src/app/agents/stock.py lines 81-97): default id
`"policy_executor"`; `handle(department: DepartmentRequest, ctx:
WorkflowContext[str])` fetches the company order policy for the extracted
department and sends the result string. -/
def policy : ExecutorSpec :=
  { id := "policy_executor", inputType := .departmentRequest,
    sendsType := some .str, yieldsType := none }

/-- Executor `Summarizer` (src/app/agents/stock.py lines 100-127): default id
`"summarizer"`; `handle(messages: str, ctx:
WorkflowContext[list[ChatMessage], str])` yields the final output string. -/
def summarizer : ExecutorSpec :=
  { id := "summarizer", inputType := .str,
    sendsType := none, yieldsType := some .str }

/-- The external `WorkflowBuilder` fluent API as configured by this
repository: it accumulates a start executor and a list of directed edges. -/
structure WorkflowBuilder where
  start : Option String
  edges : List (String × String)

/-- Fluent call `WorkflowBuilder().set_start_executor(e)`. -/
def WorkflowBuilder.set_start_executor (b : WorkflowBuilder)
    (e : ExecutorSpec) : WorkflowBuilder :=
  { b with start := some e.id }

/-- Fluent call `builder.add_edge(src, dst)`. -/
def WorkflowBuilder.add_edge (b : WorkflowBuilder) (src dst : ExecutorSpec) :
    WorkflowBuilder :=
  { b with edges := b.edges ++ [(src.id, dst.id)] }

/-- The built workflow graph. -/
structure Workflow where
  start : Option String
  edges : List (String × String)
  deriving Repr, DecidableEq

/-- Fluent call `builder.build()`. -/
def WorkflowBuilder.build (b : WorkflowBuilder) : Workflow :=
  { start := b.start, edges := b.edges }

/-- Embeds `workflow` (src/app/agents/stock.py line 144):
`WorkflowBuilder().set_start_executor(writer).add_edge(writer,
policy).add_edge(policy, summarizer).build()`. -/
def workflow : Workflow :=
  (((({ start := none, edges := [] } : WorkflowBuilder).set_start_executor
    writer).add_edge writer policy).add_edge policy summarizer).build

end Stock

namespace Ws

/-- A framework event observed on `workflow.run_stream`
(src/app/api/app.py lines 1370-1416 dispatch on the event class). -/
inductive WfEvent where
  | workflowStarted (data : String)
  | workflowOutput (data : String)
  | executorInvoked (id : String) (data : String)
  | executorCompleted (id : String) (data : String)
  | executorFailed (id : String) (msg : String)
  | other (text : String)
  deriving Repr, DecidableEq

/-- A JSON frame sent over the WebSocket, identified by its `type` field
and the payload relevant to the claims. -/
inductive Frame where
  | started
  | workflow_started (data : String)
  | workflow_output (data : String)
  | step_started (id : String)
  | step_completed (id : String)
  | step_failed (id : String)
  | event (data : String)
  | completed (output : Option String)
  | error (msg : String)
  deriving Repr, DecidableEq

/-- The frame the event-dispatch chain builds for one workflow event
(src/app/api/app.py lines 1372-1416). -/
def frameOfEvent : WfEvent → Frame
  | .workflowStarted d => .workflow_started d
  | .workflowOutput d => .workflow_output d
  | .executorInvoked i _ => .step_started i
  | .executorCompleted i _ => .step_completed i
  | .executorFailed i _ => .step_failed i
  | .other t => .event t

/-- Whether a frame has one of the six per-event types the handler forwards. -/
def isEventFrame : Frame → Bool
  | .workflow_started _ => true
  | .workflow_output _ => true
  | .step_started _ => true
  | .step_completed _ => true
  | .step_failed _ => true
  | .event _ => true
  | _ => false

/-- State of one WebSocket session: the frames successfully delivered, whether
`websocket.close()` has run, and the client's remaining liveness budget —
`send_json` succeeds while the budget is positive (or unlimited) and raises
`WebSocketDisconnect` once it is exhausted. -/
structure WsState where
  sent : List Frame
  closed : Bool
  budget : Option Nat
  deriving Repr, DecidableEq

/-- Sending `await websocket.send_json(frame)`: delivers the frame, or raises when the
client has gone away (`Bool` result `false`). -/
def wsSend (s : WsState) (f : Frame) : WsState × Bool :=
  match s.budget with
  | some 0 => (s, false)
  | some (n + 1) => ({ s with sent := s.sent ++ [f], budget := some n }, true)
  | none => ({ s with sent := s.sent ++ [f] }, true)

/-- The `async for` loop body: forward each event as its frame, stopping at
the first `send_json` that raises. -/
def sendAll : WsState → List WfEvent → WsState × Bool
  | s, [] => (s, true)
  | s, e :: rest =>
    match wsSend s (frameOfEvent e) with
    | (s2, true) => sendAll s2 rest
    | (s2, false) => (s2, false)

/-- The captured `workflow_output` (the loop overwrites `workflow_output` at
each `WorkflowOutputEvent`, so the completion frame carries the last one). -/
def lastOutput (events : List WfEvent) : Option String :=
  (events.filterMap fun e =>
    match e with
    | .workflowOutput d => some d
    | _ => none).getLast?

/-- Outcome of `websocket.receive_text()` followed by `json.loads`. -/
inductive RecvOutcome where
  | disconnected
  | malformed (text : String)
  | payload (message : Option String) (store_id : Option Int)
  deriving Repr, DecidableEq

/-- The message `str(e)` of a `WebSocketDisconnect` raised by a failed send. -/
def wsDisconnectMsg : String := "WebSocket disconnect"

/-- The `full_message` computation (src/app/api/app.py lines 1347-1364): note the
truthiness test `if store_id:` treats store 0 like absent. -/
def fullMessage (message : Option String) (store_id : Option Int) : String :=
  let base := message.getD "Analyze inventory and recommend restocking priorities"
  match store_id with
  | some sid => if sid == 0 then base else base ++ " Store ID: " ++ toString sid
  | none => base

/-- The inner `try` of the handler (src/app/api/app.py lines 1369-1435):
forward all events, then send `completed` with the captured output when the
stream ends normally; `except Exception` (which also catches a
`WebSocketDisconnect` raised by a send) sends an `error` frame whose own
failure escapes to the outer handler. -/
def innerBlock (s1 : WsState) (events : List WfEvent)
    (terminal : Option String) : WsState :=
  let (s2, ok) := sendAll s1 events
  if ok then
    match terminal with
    | none =>
      let (s3, ok2) := wsSend s2 (.completed (lastOutput events))
      if ok2 then s3
      else (wsSend s3 (.error ("Workflow error: " ++ wsDisconnectMsg))).1
    | some m => (wsSend s2 (.error ("Workflow error: " ++ m))).1
  else (wsSend s2 (.error ("Workflow error: " ++ wsDisconnectMsg))).1

/-- Embeds `websocket_ai_agent_inventory` (src/app/api/app.py lines
1334-1453). Parameters: the receive/parse outcome, the event stream the
external workflow produces, `terminal = some m` when the stream raises with
message `m` after its events, and the client liveness budget. The outer
`except WebSocketDisconnect: pass`, `except Exception: best-effort error
frame`, and `finally: close()` are part of the body; `close()` always
leaves the socket closed. -/
def wsHandler (recv : RecvOutcome) (events : List WfEvent)
    (terminal : Option String) (budget : Option Nat) : WsState :=
  let s0 : WsState := { sent := [], closed := false, budget := budget }
  let sEnd :=
    match recv with
    | .disconnected => s0
    | .malformed t => (wsSend s0 (.error ("json decode error: " ++ t))).1
    | .payload msg sid =>
      let _ := fullMessage msg sid
      match wsSend s0 .started with
      | (s1, true) => innerBlock s1 events terminal
      | (s1, false) => s1
  { sEnd with closed := true }

end Ws

/-- Whether an exception is raised at some point while executing a provider
query operation with the given pool and database behaviour: a missing or
exhausted pool, a failing acquire, a failing `set_config`, a raising
`conn.fetch`, or a `KeyError` while building the data rows. The branch
structure mirrors `runProviderQuery`. -/
def opRaises (pool? : Option Pool) (beh : DbBehavior) : Bool :=
  match pool? with
  | none => true
  | some pool =>
    match pool.available with
    | [] => true
    | _ :: _ =>
      if beh.acquireFails then true
      else if beh.setConfigFails then true
      else
        match beh.fetchOutcome with
        | .error _ => true
        | .ok rows =>
          match rows with
          | [] => false
          | r0 :: _ =>
            match buildRowsData (r0.map Prod.fst) rows with
            | .error _ => true
            | .ok _ => false

/-- The operation returned normally with the error envelope
`{"err": ..., "c": [], "r": [], "n": 0}`. -/
def isErrorEnvelopeResult (res : Except Exc Envelope) : Bool :=
  match res with
  | .ok e => e.err.isSome && e.c == [] && e.r == [] && e.n == 0
  | .error _ => false

/-- The envelope shape asserted by the spec: either an error envelope
(`"err"` present) or a data envelope whose `"n"` equals the number of rows
in `"r"` and whose rows each have exactly as many entries as `"c"` has
column names. -/
def envelopeWellFormed (e : Envelope) : Bool :=
  e.err.isSome ||
    (e.n == e.r.length && e.r.all (fun row => row.length == e.c.length))

/-- Predicate `envelopeWellFormed` on the envelope of a normally-returning operation. -/
def resultEnvelopeWellFormed (res : Except Exc Envelope) : Bool :=
  match res with
  | .ok e => envelopeWellFormed e
  | .error _ => false

/-- Available connections of an optional pool. -/
def availableOf : Option Pool → List Nat
  | none => []
  | some p => p.available

/-- The connections acquired in a trace. -/
def acqConns (events : List PoolEvent) : List Nat :=
  events.filterMap fun ev =>
    match ev with
    | .acq c => some c
    | .rel _ => none

/-- The connections released in a trace. -/
def relConns (events : List PoolEvent) : List Nat :=
  events.filterMap fun ev =>
    match ev with
    | .acq _ => none
    | .rel c => some c

/-- First character of a string. -/
def firstChar (s : String) : Option Char := s.data.head?

/-- A small concrete database used to evaluate the endpoint embeddings:
one physical store, one category, one product type, two in-stock products
(stock levels 5 and 7) with cost 1 and retail price 2. -/
def dbExample : RetailDB :=
  { stores := [{ store_id := 1, store_name := "Zava Pop-Up Bellevue Square",
                 is_online := false }]
    categories := [{ category_id := 1, category_name := "Accessories" }]
    product_types := [{ type_id := 1, type_name := "Cap" }]
    products :=
      [{ product_id := 1, sku := "SKU1", product_name := "Alpha",
         product_description := none, category_id := 1, type_id := 1,
         cost := 1, base_price := 2, gross_margin_percent := 50,
         discontinued := false, supplier_id := none },
       { product_id := 2, sku := "SKU2", product_name := "Beta",
         product_description := none, category_id := 1, type_id := 1,
         cost := 1, base_price := 2, gross_margin_percent := 50,
         discontinued := false, supplier_id := none }]
    suppliers := []
    inventory := [{ store_id := 1, product_id := 1, stock_level := 5 },
                  { store_id := 1, product_id := 2, stock_level := 7 }]
    product_image_embeddings := [] }

/-- A concrete `datetime.now(UTC).isoformat()` value. -/
def isoExample : String := "2026-10-12T00:00:00+00:00"

/-- The `FinanceInvRow` that `financeInventoryRows dbExample none none 5`
produces for the Alpha product (stock level 5, exactly at the threshold). -/
def finRowAlpha : FinanceInvRow :=
  { store_name := "Zava Pop-Up Bellevue Square", is_online := false
    product_name := "Alpha", sku := "SKU1", category_name := "Accessories"
    product_type := "Cap", stock_level := 5, cost := 1, base_price := 2
    inventory_value := 5, retail_value := 10, low_stock_alert := true }

/-- The `InventoryItem` that `AppApi.get_inventory dbExample` produces for
the Alpha product at threshold 5 (stock level 5, exactly at the threshold). -/
def itemAlpha : AppApi.InventoryItem :=
  { store_id := 1, store_name := "Zava Pop-Up Bellevue Square"
    store_location := "Bellevue Square", is_online := false
    product_id := 1, product_name := "Alpha", sku := "SKU1"
    category := "Accessories", type := "Cap", stock_level := 5
    reorder_point := 5, is_low_stock := false, unit_cost := 1, unit_price := 2
    stock_value := 5, retail_value := 10, supplier_name := none
    supplier_code := none, lead_time := none, image_url := none }

/-- A concrete database behaviour in which `conn.fetch` raises. -/
def behFetchFails : DbBehavior :=
  { acquireFails := false, setConfigFails := false,
    fetchOutcome := .error (.dbError "relation does not exist") }

/-- A concrete one-connection pool. -/
def poolExample : Pool := { available := [7] }

/-- The `ProductList` that `GET /api/products/category/ACCESSORIES` returns
on `dbExample` (case-insensitive match against category `Accessories`). -/
def plExample : AppApi.ProductList :=
  { products := AppApi.categoryProducts dbExample "ACCESSORIES" 50 0, total := 2 }

theorem insertSorted_perm {α : Type} (le : α → α → Bool) (x : α) (l : List α) :
    List.Perm (insertSorted le x l) (x :: l) := by
  induction l with
  | nil => simp [insertSorted]
  | cons y ys ih =>
    simp only [insertSorted]
    by_cases h : le x y
    · simp [h]
    · rw [if_neg h]
      exact List.Perm.trans (List.Perm.cons y ih) (List.Perm.swap x y ys)

theorem sortBy_perm {α : Type} (le : α → α → Bool) (l : List α) :
    List.Perm (sortBy le l) l := by
  induction l with
  | nil => simp [sortBy]
  | cons x xs ih =>
    exact List.Perm.trans (insertSorted_perm le x (sortBy le xs)) (List.Perm.cons x ih)

theorem mapExc_length {α β : Type} (f : α → Except Exc β) :
    ∀ (l : List α) (ys : List β), mapExc f l = .ok ys → ys.length = l.length := by
  intro l
  induction l with
  | nil =>
    intro ys h
    simp only [mapExc] at h
    cases h
    rfl
  | cons x xs ih =>
    intro ys h
    simp only [mapExc] at h
    cases hfx : f x with
    | error e => rw [hfx] at h; exact absurd h (by simp)
    | ok y =>
      rw [hfx] at h
      cases hrest : mapExc f xs with
      | error e => rw [hrest] at h; exact absurd h (by simp)
      | ok ys2 =>
        rw [hrest] at h
        cases h
        simp [ih ys2 hrest]

theorem buildRowsData_lengths (cols : List String) :
    ∀ (rows : List Row) (dataRows : List (List Value)),
      buildRowsData cols rows = .ok dataRows →
      dataRows.all (fun row => row.length == cols.length) = true := by
  intro rows
  induction rows with
  | nil =>
    intro d h
    simp only [buildRowsData, mapExc] at h
    cases h
    rfl
  | cons r rs ih =>
    intro d h
    simp only [buildRowsData, mapExc] at h
    cases hr : mapExc (fun col => lookupCol r col) cols with
    | error e => rw [hr] at h; exact absurd h (by simp)
    | ok y =>
      rw [hr] at h
      cases hrest : mapExc (fun row => mapExc (fun col => lookupCol row col) cols) rs with
      | error e => rw [hrest] at h; exact absurd h (by simp)
      | ok ys =>
        rw [hrest] at h
        cases h
        have h1 : y.length = cols.length := mapExc_length _ _ _ hr
        have h2 := ih ys hrest
        simp [List.all_cons, h1, h2]

theorem runProviderQuery_isOk (ep em : String) (pool? : Option Pool)
    (beh : DbBehavior) :
    (runProviderQuery ep em pool? beh).result.isOk = true := by
  unfold runProviderQuery
  repeat' split
  all_goals rfl

theorem runProviderQuery_pool_perm (ep em : String) (pool? : Option Pool)
    (beh : DbBehavior) :
    List.Perm (availableOf (runProviderQuery ep em pool? beh).pool)
      (availableOf pool?) := by
  rcases pool? with _ | ⟨avail⟩
  · simp [runProviderQuery, availableOf]
  rcases avail with _ | ⟨c, rest⟩
  · simp [runProviderQuery, availableOf]
  cases ha : beh.acquireFails with
  | true => simp [runProviderQuery, ha, availableOf]
  | false =>
    cases hs : beh.setConfigFails with
    | true =>
      simp only [runProviderQuery, ha, hs, Bool.false_eq_true, if_false,
        if_true, availableOf]
      exact List.perm_append_singleton c rest
    | false =>
      cases hf : beh.fetchOutcome with
      | error e =>
        simp only [runProviderQuery, ha, hs, hf, Bool.false_eq_true, if_false,
          availableOf]
        exact List.perm_append_singleton c rest
      | ok rows =>
        cases rows with
        | nil =>
          simp only [runProviderQuery, ha, hs, hf, Bool.false_eq_true,
            if_false, availableOf]
          exact List.perm_append_singleton c rest
        | cons r0 rs =>
          cases hb : buildRowsData (r0.map Prod.fst) (r0 :: rs) with
          | error e =>
            simp only [runProviderQuery, ha, hs, hf, hb, Bool.false_eq_true,
              if_false, availableOf]
            exact List.perm_append_singleton c rest
          | ok dataRows =>
            simp only [runProviderQuery, ha, hs, hf, hb, Bool.false_eq_true,
              if_false, availableOf]
            exact List.perm_append_singleton c rest

theorem runProviderQuery_acq_le_one (ep em : String) (pool? : Option Pool)
    (beh : DbBehavior) :
    (acqConns (runProviderQuery ep em pool? beh).events).length ≤ 1 := by
  rcases pool? with _ | ⟨avail⟩
  · simp [runProviderQuery, acqConns]
  rcases avail with _ | ⟨c, rest⟩
  · simp [runProviderQuery, acqConns]
  cases ha : beh.acquireFails with
  | true => simp [runProviderQuery, ha, acqConns]
  | false =>
    cases hs : beh.setConfigFails with
    | true => simp [runProviderQuery, ha, hs, acqConns]
    | false =>
      cases hf : beh.fetchOutcome with
      | error e => simp [runProviderQuery, ha, hs, hf, acqConns]
      | ok rows =>
        cases rows with
        | nil => simp [runProviderQuery, ha, hs, hf, acqConns]
        | cons r0 rs =>
          cases hb : buildRowsData (r0.map Prod.fst) (r0 :: rs) with
          | error e => simp [runProviderQuery, ha, hs, hf, hb, acqConns]
          | ok dataRows => simp [runProviderQuery, ha, hs, hf, hb, acqConns]

theorem runProviderQuery_acq_eq_rel (ep em : String) (pool? : Option Pool)
    (beh : DbBehavior) :
    acqConns (runProviderQuery ep em pool? beh).events =
      relConns (runProviderQuery ep em pool? beh).events := by
  rcases pool? with _ | ⟨avail⟩
  · simp [runProviderQuery, acqConns, relConns]
  rcases avail with _ | ⟨c, rest⟩
  · simp [runProviderQuery, acqConns, relConns]
  cases ha : beh.acquireFails with
  | true => simp [runProviderQuery, ha, acqConns, relConns]
  | false =>
    cases hs : beh.setConfigFails with
    | true => simp [runProviderQuery, ha, hs, acqConns, relConns]
    | false =>
      cases hf : beh.fetchOutcome with
      | error e => simp [runProviderQuery, ha, hs, hf, acqConns, relConns]
      | ok rows =>
        cases rows with
        | nil => simp [runProviderQuery, ha, hs, hf, acqConns, relConns]
        | cons r0 rs =>
          cases hb : buildRowsData (r0.map Prod.fst) (r0 :: rs) with
          | error e =>
            simp [runProviderQuery, ha, hs, hf, hb, acqConns, relConns]
          | ok dataRows =>
            simp [runProviderQuery, ha, hs, hf, hb, acqConns, relConns]

theorem runProviderQuery_err (ep em : String) (pool? : Option Pool)
    (beh : DbBehavior) (h : opRaises pool? beh = true) :
    isErrorEnvelopeResult (runProviderQuery ep em pool? beh).result = true := by
  rcases pool? with _ | ⟨avail⟩
  · simp [runProviderQuery, isErrorEnvelopeResult, errEnvelope]
  rcases avail with _ | ⟨c, rest⟩
  · simp [runProviderQuery, isErrorEnvelopeResult, errEnvelope]
  cases ha : beh.acquireFails with
  | true => simp [runProviderQuery, ha, isErrorEnvelopeResult, errEnvelope]
  | false =>
    cases hs : beh.setConfigFails with
    | true => simp [runProviderQuery, ha, hs, isErrorEnvelopeResult, errEnvelope]
    | false =>
      cases hf : beh.fetchOutcome with
      | error e =>
        simp [runProviderQuery, ha, hs, hf, isErrorEnvelopeResult, errEnvelope]
      | ok rows =>
        cases rows with
        | nil => simp [opRaises, ha, hs, hf] at h
        | cons r0 rs =>
          cases hb : buildRowsData (r0.map Prod.fst) (r0 :: rs) with
          | error e =>
            simp [runProviderQuery, ha, hs, hf, hb, isErrorEnvelopeResult,
              errEnvelope]
          | ok dataRows => simp [opRaises, ha, hs, hf, hb] at h

theorem runProviderQuery_wellFormed (ep em : String) (pool? : Option Pool)
    (beh : DbBehavior) :
    resultEnvelopeWellFormed (runProviderQuery ep em pool? beh).result = true := by
  rcases pool? with _ | ⟨avail⟩
  · simp [runProviderQuery, resultEnvelopeWellFormed, envelopeWellFormed,
      errEnvelope]
  rcases avail with _ | ⟨c, rest⟩
  · simp [runProviderQuery, resultEnvelopeWellFormed, envelopeWellFormed,
      errEnvelope]
  cases ha : beh.acquireFails with
  | true =>
    simp [runProviderQuery, ha, resultEnvelopeWellFormed, envelopeWellFormed,
      errEnvelope]
  | false =>
    cases hs : beh.setConfigFails with
    | true =>
      simp [runProviderQuery, ha, hs, resultEnvelopeWellFormed,
        envelopeWellFormed, errEnvelope]
    | false =>
      cases hf : beh.fetchOutcome with
      | error e =>
        simp [runProviderQuery, ha, hs, hf, resultEnvelopeWellFormed,
          envelopeWellFormed, errEnvelope]
      | ok rows =>
        cases rows with
        | nil =>
          simp [runProviderQuery, ha, hs, hf, resultEnvelopeWellFormed,
            envelopeWellFormed, emptyEnvelope]
        | cons r0 rs =>
          cases hb : buildRowsData (r0.map Prod.fst) (r0 :: rs) with
          | error e =>
            simp [runProviderQuery, ha, hs, hf, hb, resultEnvelopeWellFormed,
              envelopeWellFormed, errEnvelope]
          | ok dataRows =>
            have hlen := buildRowsData_lengths _ _ _ hb
            simp only [List.all_eq_true, beq_iff_eq, List.length_map] at hlen
            simp only [runProviderQuery, ha, hs, hf, hb, Bool.false_eq_true,
              if_false, resultEnvelopeWellFormed, envelopeWellFormed,
              Option.isSome_none, Bool.false_or, beq_self_eq_true,
              Bool.true_and, List.all_eq_true, beq_iff_eq, List.length_map]
            exact hlen

/-- C1: For every finance or supplier provider query operation
(`get_company_order_policy`, `get_supplier_contract`,
`get_historical_sales_data`, `get_current_inventory_status`,
`list_suppliers`, `find_suppliers_for_request`) and for every exception
raised while executing the query, the operation returns normally (the
exception is never propagated to the caller) with a JSON envelope
containing an `err` message together with `c = []`, `r = []` and `n = 0`. -/
theorem claim_C1_exceptions_become_error_envelopes :
    (∀ dept pool? beh,
      (FinancePostgreSQLProvider.get_company_order_policy dept pool? beh).result.isOk = true ∧
      (opRaises pool? beh = true →
        isErrorEnvelopeResult
          (FinancePostgreSQLProvider.get_company_order_policy dept pool? beh).result = true)) ∧
    (∀ sid pool? beh,
      (FinancePostgreSQLProvider.get_supplier_contract sid pool? beh).result.isOk = true ∧
      (opRaises pool? beh = true →
        isErrorEnvelopeResult
          (FinancePostgreSQLProvider.get_supplier_contract sid pool? beh).result = true)) ∧
    (∀ days sid cat pool? beh,
      (FinancePostgreSQLProvider.get_historical_sales_data days sid cat pool? beh).result.isOk = true ∧
      (opRaises pool? beh = true →
        isErrorEnvelopeResult
          (FinancePostgreSQLProvider.get_historical_sales_data days sid cat pool? beh).result = true)) ∧
    (∀ db fault sid cat thr pool? aq sc,
      (FinancePostgreSQLProvider.get_current_inventory_status db fault sid cat thr pool? aq sc).result.isOk = true ∧
      (opRaises pool?
          { acquireFails := aq, setConfigFails := sc,
            fetchOutcome := FinancePostgreSQLProvider.invStatusFetch db fault sid cat thr } = true →
        isErrorEnvelopeResult
          (FinancePostgreSQLProvider.get_current_inventory_status db fault sid cat thr pool? aq sc).result = true)) ∧
    (∀ nq lim pool? beh,
      (SupplierPostgreSQLProvider.list_suppliers nq lim pool? beh).result.isOk = true ∧
      (opRaises pool? beh = true →
        isErrorEnvelopeResult
          (SupplierPostgreSQLProvider.list_suppliers nq lim pool? beh).result = true)) ∧
    (∀ pc esg mr mlt bmin bmax lim pool? beh,
      (SupplierPostgreSQLProvider.find_suppliers_for_request pc esg mr mlt bmin bmax lim pool? beh).result.isOk = true ∧
      (opRaises pool? beh = true →
        isErrorEnvelopeResult
          (SupplierPostgreSQLProvider.find_suppliers_for_request pc esg mr mlt bmin bmax lim pool? beh).result = true)) := by
  refine ⟨fun dept pool? beh => ⟨?_, fun h => ?_⟩,
          fun sid pool? beh => ⟨?_, fun h => ?_⟩,
          fun days sid cat pool? beh => ⟨?_, fun h => ?_⟩,
          fun db fault sid cat thr pool? aq sc => ⟨?_, fun h => ?_⟩,
          fun nq lim pool? beh => ⟨?_, fun h => ?_⟩,
          fun pc esg mr mlt bmin bmax lim pool? beh => ⟨?_, fun h => ?_⟩⟩
  all_goals
    first
    | exact runProviderQuery_isOk _ _ _ _
    | exact runProviderQuery_err _ _ _ _ h

/-- Witness for C1: with a live one-connection pool and a `conn.fetch` that
raises, `get_company_order_policy` returns normally with the error
envelope. -/
theorem claim_C1_witness :
    opRaises (some poolExample) behFetchFails = true ∧
    isErrorEnvelopeResult
      (FinancePostgreSQLProvider.get_company_order_policy none
        (some poolExample) behFetchFails).result = true :=
  ⟨by decide,
   (claim_C1_exceptions_become_error_envelopes.1 none (some poolExample)
      behFetchFails).2 (by decide)⟩

/-- C2: The module-level name `db_provider` tested and dereferenced by the
`/health` endpoint and by every asyncpg-backed REST endpoint is never
defined or imported in `app.py`, so every call to one of these endpoints
raises `NameError` on that unbound name before any query executes; in
particular `/health` never returns its documented healthy status. -/
theorem claim_C2_db_provider_unbound :
    AppApi.appModuleBindings.contains "db_provider" = false ∧
    (∀ status, AppApi.health_check status = .error (.nameError "db_provider")) ∧
    AppApi.endpointFirstGlobal.all
      (fun kv =>
        match AppApi.evalGlobal kv.2 with
        | .error (.nameError n) => n == "db_provider"
        | _ => false) = true ∧
    AppApi.endpointFirstGlobal.all
      (fun kv =>
        match AppApi.endpointEntry kv.1 with
        | .error (.nameError n) => n == "db_provider"
        | _ => false) = true := by
  refine ⟨by decide, fun status => ?_, by decide, by decide⟩
  rfl

/-- C9: The stock workflow is a declarative sequential pipeline of exactly
three executors wired extractor → policy → summarizer: the department
extractor (`writer`) is the start node, the only edge out of `writer` goes
to `policy_executor`, the only edge out of `policy_executor` goes to
`summarizer`, `summarizer` has no outgoing edge, there are no other edges,
and the message types line up (`DepartmentRequest` from the extractor into
the policy executor, `str` from the policy executor into the summarizer,
which yields the workflow's final `str` output). -/
theorem claim_C9_workflow_wiring :
    Stock.workflow.start = some Stock.writer.id ∧
    Stock.workflow.edges =
      [(Stock.writer.id, Stock.policy.id), (Stock.policy.id, Stock.summarizer.id)] ∧
    Stock.workflow.edges.filter (fun e => e.1 == Stock.writer.id) =
      [(Stock.writer.id, Stock.policy.id)] ∧
    Stock.workflow.edges.filter (fun e => e.1 == Stock.policy.id) =
      [(Stock.policy.id, Stock.summarizer.id)] ∧
    Stock.workflow.edges.filter (fun e => e.1 == Stock.summarizer.id) = [] ∧
    Stock.writer.sendsType = some Stock.MsgType.departmentRequest ∧
    Stock.policy.inputType = Stock.MsgType.departmentRequest ∧
    Stock.policy.sendsType = some Stock.MsgType.str ∧
    Stock.summarizer.inputType = Stock.MsgType.str ∧
    Stock.summarizer.sendsType = none ∧
    Stock.summarizer.yieldsType = some Stock.MsgType.str := by
  decide

/-- C6: Every finance/supplier provider query operation acquires at most one
connection from the pool and releases exactly the acquired connection back
before returning — in the success case, the empty-result case, and when the
query raises — so the pool's available connections after the call are a
permutation of those before. -/
theorem claim_C6_pool_acquire_release_discipline :
    (∀ dept pool? beh,
      List.Perm (availableOf (FinancePostgreSQLProvider.get_company_order_policy dept pool? beh).pool) (availableOf pool?) ∧
      (acqConns (FinancePostgreSQLProvider.get_company_order_policy dept pool? beh).events).length ≤ 1 ∧
      acqConns (FinancePostgreSQLProvider.get_company_order_policy dept pool? beh).events =
        relConns (FinancePostgreSQLProvider.get_company_order_policy dept pool? beh).events) ∧
    (∀ sid pool? beh,
      List.Perm (availableOf (FinancePostgreSQLProvider.get_supplier_contract sid pool? beh).pool) (availableOf pool?) ∧
      (acqConns (FinancePostgreSQLProvider.get_supplier_contract sid pool? beh).events).length ≤ 1 ∧
      acqConns (FinancePostgreSQLProvider.get_supplier_contract sid pool? beh).events =
        relConns (FinancePostgreSQLProvider.get_supplier_contract sid pool? beh).events) ∧
    (∀ days sid cat pool? beh,
      List.Perm (availableOf (FinancePostgreSQLProvider.get_historical_sales_data days sid cat pool? beh).pool) (availableOf pool?) ∧
      (acqConns (FinancePostgreSQLProvider.get_historical_sales_data days sid cat pool? beh).events).length ≤ 1 ∧
      acqConns (FinancePostgreSQLProvider.get_historical_sales_data days sid cat pool? beh).events =
        relConns (FinancePostgreSQLProvider.get_historical_sales_data days sid cat pool? beh).events) ∧
    (∀ db fault sid cat thr pool? aq sc,
      List.Perm (availableOf (FinancePostgreSQLProvider.get_current_inventory_status db fault sid cat thr pool? aq sc).pool) (availableOf pool?) ∧
      (acqConns (FinancePostgreSQLProvider.get_current_inventory_status db fault sid cat thr pool? aq sc).events).length ≤ 1 ∧
      acqConns (FinancePostgreSQLProvider.get_current_inventory_status db fault sid cat thr pool? aq sc).events =
        relConns (FinancePostgreSQLProvider.get_current_inventory_status db fault sid cat thr pool? aq sc).events) ∧
    (∀ nq lim pool? beh,
      List.Perm (availableOf (SupplierPostgreSQLProvider.list_suppliers nq lim pool? beh).pool) (availableOf pool?) ∧
      (acqConns (SupplierPostgreSQLProvider.list_suppliers nq lim pool? beh).events).length ≤ 1 ∧
      acqConns (SupplierPostgreSQLProvider.list_suppliers nq lim pool? beh).events =
        relConns (SupplierPostgreSQLProvider.list_suppliers nq lim pool? beh).events) ∧
    (∀ pc esg mr mlt bmin bmax lim pool? beh,
      List.Perm (availableOf (SupplierPostgreSQLProvider.find_suppliers_for_request pc esg mr mlt bmin bmax lim pool? beh).pool) (availableOf pool?) ∧
      (acqConns (SupplierPostgreSQLProvider.find_suppliers_for_request pc esg mr mlt bmin bmax lim pool? beh).events).length ≤ 1 ∧
      acqConns (SupplierPostgreSQLProvider.find_suppliers_for_request pc esg mr mlt bmin bmax lim pool? beh).events =
        relConns (SupplierPostgreSQLProvider.find_suppliers_for_request pc esg mr mlt bmin bmax lim pool? beh).events) := by
  refine ⟨fun dept pool? beh => ?_, fun sid pool? beh => ?_,
          fun days sid cat pool? beh => ?_,
          fun db fault sid cat thr pool? aq sc => ?_,
          fun nq lim pool? beh => ?_,
          fun pc esg mr mlt bmin bmax lim pool? beh => ?_⟩
  all_goals
    exact ⟨runProviderQuery_pool_perm _ _ _ _, runProviderQuery_acq_le_one _ _ _ _,
           runProviderQuery_acq_eq_rel _ _ _ _⟩

theorem firstChar_append (s t : String) (c : Char) (h : firstChar s = some c) :
    firstChar (s ++ t) = some c := by
  simp only [firstChar, String.data_append]
  simp only [firstChar] at h
  cases hd : s.data with
  | nil => rw [hd] at h; exact absurd h (by simp)
  | cons a as => rw [hd] at h; simp at h; simp [h]

theorem serializeEnvelope_firstChar (e : Envelope) :
    firstChar (serializeEnvelope e) = some '\x7b' := by
  unfold serializeEnvelope
  repeat' apply firstChar_append
  decide

/-- Counterexample for C4: the MCP tool `get_current_utc_date` returns a bare
ISO-8601 timestamp string, which is not the serialization of any JSON
envelope (every serialized envelope starts with a brace, the timestamp
starts with a digit). -/
theorem claim_C4_counterexample :
    ¬ ∃ e : Envelope,
        FinanceServer.get_current_utc_date isoExample = serializeEnvelope e := by
  rintro ⟨e, he⟩
  have h1 : firstChar (serializeEnvelope e) = some '\x7b' :=
    serializeEnvelope_firstChar e
  rw [← he] at h1
  have h2 : firstChar (FinanceServer.get_current_utc_date isoExample) = some '2' := by
    decide
  rw [h2] at h1
  exact absurd h1 (by decide)

/-- C4 amended: every result string produced by an MCP tool that executes a
SQL query (the six finance/supplier provider query operations and the MCP
wrappers around them — the clock tool `get_current_utc_date` excepted) is a
JSON envelope that is either `{"c": columns, "r": rows, "n": count}` or an
error envelope containing `err`; in the non-error case `n` equals the
number of rows in `r` and every row in `r` has exactly as many entries as
`c` has column names. -/
theorem claim_C4_amended_tool_envelopes_well_formed :
    (∀ dept pool? beh,
      resultEnvelopeWellFormed
        (FinancePostgreSQLProvider.get_company_order_policy dept pool? beh).result = true) ∧
    (∀ sid pool? beh,
      resultEnvelopeWellFormed
        (FinancePostgreSQLProvider.get_supplier_contract sid pool? beh).result = true) ∧
    (∀ days sid cat pool? beh,
      resultEnvelopeWellFormed
        (FinancePostgreSQLProvider.get_historical_sales_data days sid cat pool? beh).result = true) ∧
    (∀ db fault sid cat thr pool? aq sc,
      resultEnvelopeWellFormed
        (FinancePostgreSQLProvider.get_current_inventory_status db fault sid cat thr pool? aq sc).result = true) ∧
    (∀ nq lim pool? beh,
      resultEnvelopeWellFormed
        (SupplierPostgreSQLProvider.list_suppliers nq lim pool? beh).result = true) ∧
    (∀ pc esg mr mlt bmin bmax lim pool? beh,
      resultEnvelopeWellFormed
        (SupplierPostgreSQLProvider.find_suppliers_for_request pc esg mr mlt bmin bmax lim pool? beh).result = true) ∧
    (∀ pc esg mr mlt bmin bmax lim pool? beh,
      ∃ e : Envelope, envelopeWellFormed e = true ∧
        SupplierServer.find_suppliers_for_request
          (SupplierPostgreSQLProvider.find_suppliers_for_request pc esg mr mlt bmin bmax lim pool? beh).result =
          serializeEnvelope e) ∧
    (∀ exc, envelopeWellFormed (FinanceServer.get_company_order_policy (.error exc)) = true) ∧
    (∀ e, envelopeWellFormed e = true →
      envelopeWellFormed (FinanceServer.get_company_order_policy (.ok e)) = true) := by
  refine ⟨fun dept pool? beh => runProviderQuery_wellFormed _ _ _ _,
          fun sid pool? beh => runProviderQuery_wellFormed _ _ _ _,
          fun days sid cat pool? beh => runProviderQuery_wellFormed _ _ _ _,
          fun db fault sid cat thr pool? aq sc => runProviderQuery_wellFormed _ _ _ _,
          fun nq lim pool? beh => runProviderQuery_wellFormed _ _ _ _,
          fun pc esg mr mlt bmin bmax lim pool? beh => runProviderQuery_wellFormed _ _ _ _,
          fun pc esg mr mlt bmin bmax lim pool? beh => ?_,
          fun exc => by simp [FinanceServer.get_company_order_policy, envelopeWellFormed, errEnvelope],
          fun e he => by simpa [FinanceServer.get_company_order_policy] using he⟩
  have hwf := runProviderQuery_wellFormed
    "Find suppliers query failed: " "No suppliers found matching criteria" pool? beh
  cases hres : (SupplierPostgreSQLProvider.find_suppliers_for_request pc esg mr mlt bmin bmax lim pool? beh).result with
  | ok env =>
    refine ⟨env, ?_, by simp [SupplierServer.find_suppliers_for_request, hres]⟩
    have : resultEnvelopeWellFormed (Except.ok env : Except Exc Envelope) = true := by
      rw [← hres]; exact hwf
    simpa [resultEnvelopeWellFormed] using this
  | error exc =>
    exact ⟨errEnvelope ("Find suppliers failed: " ++ excMessage exc),
      by simp [envelopeWellFormed, errEnvelope],
      by simp [SupplierServer.find_suppliers_for_request, hres]⟩

/-- Witness for C4's amended claim: a concrete well-formed envelope passes
through the finance MCP wrapper unchanged and well-formed. -/
theorem claim_C4_amended_witness :
    envelopeWellFormed (emptyEnvelope "No order policies found") = true ∧
    envelopeWellFormed
      (FinanceServer.get_company_order_policy
        (.ok (emptyEnvelope "No order policies found"))) = true :=
  ⟨by decide,
   claim_C4_amended_tool_envelopes_well_formed.2.2.2.2.2.2.2.2
     (emptyEnvelope "No order policies found") (by decide)⟩

/-- C7: In every `GET /api/management/products` response, `pagination.has_more`
is true if and only if `offset` plus the number of products returned is
strictly less than `pagination.total`, and `pagination.total` is the count
of products matching the category, supplier, discontinued and search
filters (independent of `limit` and `offset`). -/
theorem claim_C7_pagination_has_more_iff :
    ∀ db category supplier_id discontinued search limit offset,
      ((AppApi.get_products db category supplier_id discontinued search limit offset).pagination.has_more = true ↔
        offset + (AppApi.get_products db category supplier_id discontinued search limit offset).products.length <
          AppApi.managementProductCount db category supplier_id discontinued search) ∧
      (AppApi.get_products db category supplier_id discontinued search limit offset).pagination.total =
        AppApi.managementProductCount db category supplier_id discontinued search := by
  intro db category supplier_id discontinued search limit offset
  constructor
  · simp [AppApi.get_products]
  · rfl

/-- C8: `GET /api/products/category/{category}` responds with HTTP 404
exactly when the number of non-discontinued products whose category name
equals the given category case-insensitively is zero; otherwise it responds
200 with a `ProductList` whose `total` equals that count, independent of
`limit` and `offset`. -/
theorem claim_C8_category_404_iff_no_products :
    ∀ db category limit offset,
      ((AppApi.get_products_by_category db category limit offset).hasStatus 404 = true ↔
        AppApi.categoryProductCount db category = 0) ∧
      (∀ pl, AppApi.get_products_by_category db category limit offset = .ok pl →
        pl.total = AppApi.categoryProductCount db category) := by
  intro db category limit offset
  constructor
  · by_cases h : AppApi.categoryProductCount db category = 0 <;>
      simp [AppApi.get_products_by_category, AppApi.ApiResult.hasStatus, h]
  · intro pl hpl
    by_cases h : AppApi.categoryProductCount db category = 0
    · simp [AppApi.get_products_by_category, h] at hpl
    · simp [AppApi.get_products_by_category, h] at hpl
      rw [← hpl]

/-- Witness for C8: on the concrete database, category `Boots` has no
products (404), while `ACCESSORIES` matches the two `Accessories` products
case-insensitively (200 with `total = 2`). -/
theorem claim_C8_witness :
    (AppApi.get_products_by_category dbExample "Boots" 50 0).hasStatus 404 = true ∧
    plExample.total = AppApi.categoryProductCount dbExample "ACCESSORIES" :=
  ⟨((claim_C8_category_404_iff_no_products dbExample "Boots" 50 0).1).mpr (by decide),
   (claim_C8_category_404_iff_no_products dbExample "ACCESSORIES" 50 0).2
     plExample (by decide)⟩

theorem wsSend_sent_append (s : Ws.WsState) (f : Ws.Frame) :
    ∃ t, (Ws.wsSend s f).1.sent = s.sent ++ t := by
  unfold Ws.wsSend
  rcases s with ⟨sent, closed, budget⟩
  rcases budget with _ | n
  · exact ⟨[f], rfl⟩
  · rcases n with _ | n
    · exact ⟨[], by simp⟩
    · exact ⟨[f], rfl⟩

theorem sendAll_sent_append (events : List Ws.WfEvent) :
    ∀ s : Ws.WsState, ∃ t, (Ws.sendAll s events).1.sent = s.sent ++ t := by
  induction events with
  | nil => intro s; exact ⟨[], by simp [Ws.sendAll]⟩
  | cons e rest ih =>
    intro s
    obtain ⟨t1, ht1⟩ := wsSend_sent_append s (Ws.frameOfEvent e)
    cases hw : Ws.wsSend s (Ws.frameOfEvent e) with
    | mk s2 ok =>
      rw [hw] at ht1
      simp only at ht1
      cases ok with
      | true =>
        obtain ⟨t2, ht2⟩ := ih s2
        exact ⟨t1 ++ t2, by simp [Ws.sendAll, hw, ht2, ht1, List.append_assoc]⟩
      | false => exact ⟨t1, by simp [Ws.sendAll, hw, ht1]⟩

theorem innerBlock_sent_append (s : Ws.WsState) (events : List Ws.WfEvent)
    (terminal : Option String) :
    ∃ t, (Ws.innerBlock s events terminal).sent = s.sent ++ t := by
  obtain ⟨t1, ht1⟩ := sendAll_sent_append events s
  cases hsa : Ws.sendAll s events with
  | mk s2 ok =>
    rw [hsa] at ht1
    simp only at ht1
    cases ok with
    | true =>
      cases terminal with
      | none =>
        obtain ⟨t2, ht2⟩ :=
          wsSend_sent_append s2 (.completed (Ws.lastOutput events))
        cases hw : Ws.wsSend s2 (.completed (Ws.lastOutput events)) with
        | mk s3 ok2 =>
          rw [hw] at ht2
          simp only at ht2
          cases ok2 with
          | true =>
            exact ⟨t1 ++ t2,
              by simp [Ws.innerBlock, hsa, hw, ht2, ht1, List.append_assoc]⟩
          | false =>
            obtain ⟨t3, ht3⟩ := wsSend_sent_append s3
              (.error ("Workflow error: " ++ Ws.wsDisconnectMsg))
            exact ⟨t1 ++ (t2 ++ t3),
              by simp [Ws.innerBlock, hsa, hw, ht3, ht2, ht1, List.append_assoc]⟩
      | some m =>
        obtain ⟨t2, ht2⟩ :=
          wsSend_sent_append s2 (.error ("Workflow error: " ++ m))
        exact ⟨t1 ++ t2,
          by simp [Ws.innerBlock, hsa, ht2, ht1, List.append_assoc]⟩
    | false =>
      obtain ⟨t2, ht2⟩ := wsSend_sent_append s2
        (.error ("Workflow error: " ++ Ws.wsDisconnectMsg))
      exact ⟨t1 ++ t2,
        by simp [Ws.innerBlock, hsa, ht2, ht1, List.append_assoc]⟩

theorem sendAll_unlimited (sent : List Ws.Frame) (cl : Bool)
    (events : List Ws.WfEvent) :
    Ws.sendAll { sent := sent, closed := cl, budget := none } events =
      ({ sent := sent ++ events.map Ws.frameOfEvent, closed := cl,
         budget := none }, true) := by
  induction events generalizing sent with
  | nil => simp [Ws.sendAll]
  | cons e rest ih =>
    simp [Ws.sendAll, Ws.wsSend, ih, List.append_assoc]

/-- C5: Every WebSocket session of `/ws/ai-agent/inventory` that receives a
well-formed JSON payload first sends a `started` frame; each workflow event
is forwarded as a frame whose type is one of `workflow_started`,
`workflow_output`, `step_started`, `step_completed`, `step_failed` or
`event`; when the event stream ends without exception a final `completed`
frame carrying the last captured workflow output is sent, and when the
stream raises an `error` frame is sent instead; and in every case
(disconnects and handler exceptions included) the socket is closed before
the handler returns. -/
theorem claim_C5_websocket_stream_framing :
    (∀ recv events terminal budget,
      (Ws.wsHandler recv events terminal budget).closed = true) ∧
    (∀ e, Ws.isEventFrame (Ws.frameOfEvent e) = true) ∧
    (∀ msg sid events terminal,
      (Ws.wsHandler (.payload msg sid) events terminal none).sent =
        Ws.Frame.started :: events.map Ws.frameOfEvent ++
          [match terminal with
           | none => Ws.Frame.completed (Ws.lastOutput events)
           | some m => Ws.Frame.error ("Workflow error: " ++ m)]) ∧
    (∀ msg sid events terminal budget,
      (Ws.wsHandler (.payload msg sid) events terminal budget).sent = [] ∨
      ((Ws.wsHandler (.payload msg sid) events terminal budget).sent).head? =
        some Ws.Frame.started) := by
  refine ⟨fun recv events terminal budget => rfl,
          fun e => by cases e <;> rfl,
          fun msg sid events terminal => ?_,
          fun msg sid events terminal budget => ?_⟩
  · show (Ws.wsHandler (.payload msg sid) events terminal none).sent = _
    unfold Ws.wsHandler Ws.innerBlock
    cases terminal with
    | none => simp [Ws.wsSend, sendAll_unlimited]
    | some m => simp [Ws.wsSend, sendAll_unlimited]
  · cases budget with
    | none =>
      right
      unfold Ws.wsHandler Ws.innerBlock
      cases terminal with
      | none => simp [Ws.wsSend, sendAll_unlimited]
      | some m => simp [Ws.wsSend, sendAll_unlimited]
    | some n =>
      cases n with
      | zero =>
        left
        unfold Ws.wsHandler
        simp [Ws.wsSend]
      | succ k =>
        right
        unfold Ws.wsHandler
        obtain ⟨t, ht⟩ := innerBlock_sent_append
          { sent := [Ws.Frame.started], closed := false, budget := some k }
          events terminal
        simp [Ws.wsSend, ht]

theorem finInvJoin_alert (db : RetailDB) (sid : Option Int)
    (cat : Option String) (thr : Int) (i : InventoryRow) (r : FinanceInvRow)
    (hf : finInvJoin db sid cat thr i = some r) :
    r.low_stock_alert = decide (r.stock_level ≤ thr) := by
  unfold finInvJoin at hf
  cases h1 : db.stores.find? (fun s => s.store_id == i.store_id) with
  | none => rw [h1] at hf; exact absurd hf (by simp)
  | some st =>
    rw [h1] at hf
    dsimp only at hf
    cases h2 : db.products.find? (fun pr => pr.product_id == i.product_id) with
    | none => rw [h2] at hf; exact absurd hf (by simp)
    | some p =>
      rw [h2] at hf
      dsimp only at hf
      cases h3 : db.categories.find? (fun ca => ca.category_id == p.category_id) with
      | none => rw [h3] at hf; exact absurd hf (by simp)
      | some c =>
        rw [h3] at hf
        dsimp only at hf
        cases h4 : db.product_types.find? (fun t => t.type_id == p.type_id) with
        | none => rw [h4] at hf; exact absurd hf (by simp)
        | some pt =>
          rw [h4] at hf
          dsimp only at hf
          split at hf
          · injection hf with h
            subst h
            rfl
          · exact absurd hf (by simp)

theorem financeInventoryRows_alert (db : RetailDB) (sid : Option Int)
    (cat : Option String) (thr : Int) :
    ∀ r ∈ financeInventoryRows db sid cat thr,
      r.low_stock_alert = decide (r.stock_level ≤ thr) := by
  intro r hr
  unfold financeInventoryRows at hr
  rw [(sortBy_perm _ _).mem_iff, List.mem_filterMap] at hr
  obtain ⟨i, hi, hf⟩ := hr
  exact finInvJoin_alert db sid cat thr i r hf

theorem get_inventory_is_low_stock (db : RetailDB) (sid pid : Option Int)
    (cat : Option String) (lso : Bool) (thr : Int) (lim : Nat) :
    ∀ it ∈ (AppApi.get_inventory db sid pid cat lso thr lim).inventory,
      it.is_low_stock = decide (it.stock_level < thr) := by
  intro it hit
  unfold AppApi.get_inventory at hit
  simp only [List.mem_filterMap] at hit
  obtain ⟨r, hr, hf⟩ := hit
  split at hf
  · exact absurd hf (by simp)
  · injection hf with h
    subst h
    rfl

/-- C10: The two public low-stock predicates disagree at the boundary: every
row of `FinancePostgreSQLProvider.get_current_inventory_status` has
`low_stock_alert` true iff `stock_level ≤ low_stock_threshold` (inclusive),
while every item of `GET /api/management/inventory` has `is_low_stock` true
iff `stock_level < low_stock_threshold` (strict); an item whose stock level
exactly equals the threshold is flagged by the MCP-side query but not by
the REST endpoint. -/
theorem claim_C10_low_stock_boundary_disagreement :
    (∀ db sid cat thr, ∀ r ∈ financeInventoryRows db sid cat thr,
      r.low_stock_alert = decide (r.stock_level ≤ thr)) ∧
    (∀ db sid pid cat lso thr lim,
      ∀ it ∈ (AppApi.get_inventory db sid pid cat lso thr lim).inventory,
        it.is_low_stock = decide (it.stock_level < thr)) ∧
    (∀ db sid cat thr, ∀ r ∈ financeInventoryRows db sid cat thr,
      r.stock_level = thr → r.low_stock_alert = true) ∧
    (∀ db sid pid cat lso thr lim,
      ∀ it ∈ (AppApi.get_inventory db sid pid cat lso thr lim).inventory,
        it.stock_level = thr → it.is_low_stock = false) := by
  refine ⟨financeInventoryRows_alert, get_inventory_is_low_stock, ?_, ?_⟩
  · intro db sid cat thr r hr heq
    rw [financeInventoryRows_alert db sid cat thr r hr, heq]
    simp
  · intro db sid pid cat lso thr lim it hit heq
    rw [get_inventory_is_low_stock db sid pid cat lso thr lim it hit, heq]
    simp

/-- Witness for C10: on the concrete database with threshold 5, the Alpha
product (stock level exactly 5) gets `low_stock_alert = true` from the
finance query but `is_low_stock = false` from the REST endpoint. -/
theorem claim_C10_witness :
    finRowAlpha ∈ financeInventoryRows dbExample none none 5 ∧
    finRowAlpha.low_stock_alert = true ∧
    itemAlpha ∈ (AppApi.get_inventory dbExample none none none false 5 100).inventory ∧
    itemAlpha.is_low_stock = false := by
  have hmemF : finRowAlpha ∈ financeInventoryRows dbExample none none 5 := by
    norm_num [financeInventoryRows, finInvJoin, dbExample, finRowAlpha,
      sortBy, insertSorted, finInvLe, eqCI, lowerStr, lowerChar, strLt,
      charListLt, List.filterMap]
  have hloc : AppApi.storeLocation
      { store_id := 1, store_name := "Zava Pop-Up Bellevue Square",
        is_online := false } = "Bellevue Square" := by decide
  have hmemI : itemAlpha ∈
      (AppApi.get_inventory dbExample none none none false 5 100).inventory := by
    norm_num [AppApi.get_inventory, AppApi.invMatchedRows, AppApi.toInventoryItem,
      AppApi.invRowLe, dbExample, itemAlpha, sortBy,
      insertSorted, strLt, strLe, charListLt, eqCI, lowerStr, lowerChar,
      round2, round_eq, hloc, List.filterMap]
  exact ⟨hmemF,
    claim_C10_low_stock_boundary_disagreement.2.2.1 dbExample none none 5
      finRowAlpha hmemF rfl,
    hmemI,
    claim_C10_low_stock_boundary_disagreement.2.2.2 dbExample none none none
      false 5 100 itemAlpha hmemI rfl⟩

/-- Counterexample for C3: on the concrete database (two inventory rows of
cost 1 with stock levels 5 and 7) with `limit = 1`, the summary's
`total_stock_value` is 12 (computed over ALL matching rows) while the sum
of `stock_value` over the items actually returned is 5. -/
theorem claim_C3_counterexample :
    ¬ ((AppApi.get_inventory dbExample none none none false 10 1).summary.total_stock_value =
       ((AppApi.get_inventory dbExample none none none false 10 1).inventory.map
          (fun it => it.stock_value)).sum) := by
  have hloc : AppApi.storeLocation
      { store_id := 1, store_name := "Zava Pop-Up Bellevue Square",
        is_online := false } = "Bellevue Square" := by decide
  norm_num [AppApi.get_inventory, AppApi.invMatchedRows, AppApi.toInventoryItem,
    AppApi.invRowLe, dbExample, sortBy, insertSorted, strLt, strLe, charListLt,
    round2, round_eq, hloc, List.filterMap]

/-- C3 amended: whenever `low_stock_only` is false and every row matching the
filters fits within `limit` (so the response lists every matching row), the
summary's `total_stock_value` equals the rounded sum of the unrounded item
values `unit_cost * stock_level` over the returned items — the original
claim fails when `limit` truncates the listing or `low_stock_only` filters
it, because the summary query ignores both. -/
theorem claim_C3_amended_summary_matches_complete_listing
    (db : RetailDB) (store_id product_id : Option Int) (category : Option String)
    (thr : Int) (limit : Nat)
    (h : (AppApi.invMatchedRows db store_id product_id category).length ≤ limit) :
    (AppApi.get_inventory db store_id product_id category false thr limit).summary.total_stock_value =
      round2 (((AppApi.get_inventory db store_id product_id category false thr limit).inventory.map
        (fun it => it.unit_cost * (it.stock_level : ℚ))).sum) := by
  unfold AppApi.get_inventory
  dsimp only
  congr 1
  have hlen : (sortBy AppApi.invRowLe
      (AppApi.invMatchedRows db store_id product_id category)).length ≤ limit := by
    rw [(sortBy_perm AppApi.invRowLe _).length_eq]
    exact h
  rw [List.take_of_length_le hlen]
  simp only [Bool.false_and, Bool.false_eq_true, if_false]
  have hcomp : (fun r => some (AppApi.toInventoryItem db thr r)) =
      some ∘ AppApi.toInventoryItem db thr := rfl
  rw [hcomp, List.filterMap_eq_map, List.map_map]
  have hpt : ∀ r ∈ sortBy AppApi.invRowLe
      (AppApi.invMatchedRows db store_id product_id category),
      ((fun it => it.unit_cost * (it.stock_level : ℚ)) ∘
        AppApi.toInventoryItem db thr) r =
        (fun r => (r.inv.stock_level : ℚ) * r.product.cost) r := by
    intro r _
    dsimp [AppApi.toInventoryItem]
    rcases eq_or_ne r.product.cost 0 with hc | hc
    · simp [hc]
    · simp only [beq_iff_eq, hc, if_neg]
      exact mul_comm _ _
  rw [List.map_congr_left hpt]
  exact ((sortBy_perm AppApi.invRowLe
    (AppApi.invMatchedRows db store_id product_id category)).map
      (fun r => (r.inv.stock_level : ℚ) * r.product.cost)).sum_eq.symm

/-- Witness for C3's amended claim: on the concrete database all matching
rows fit within `limit = 100`, and the summary equals the rounded item
sum. -/
theorem claim_C3_amended_witness :
    (AppApi.invMatchedRows dbExample none none none).length ≤ 100 ∧
    (AppApi.get_inventory dbExample none none none false 10 100).summary.total_stock_value =
      round2 (((AppApi.get_inventory dbExample none none none false 10 100).inventory.map
        (fun it => it.unit_cost * (it.stock_level : ℚ))).sum) :=
  ⟨by decide,
   claim_C3_amended_summary_matches_complete_listing dbExample none none none
     10 100 (by decide)⟩
